import Mathlib

/-!
Verification of the document ingestion and retrieval pipeline of the
juno-rag-chatbot repository (src/chroma_utils.py, src/langchain_utils.py,
src/main_simple.py).

Python strings are modelled as `List Char`.  The external collaborators
(the pdf/docx/html parsers, the file reader and the embedding/add call of
the Chroma vector store) are abstracted as an environment `Env`; the Chroma
vector store itself is modelled as a list of records, with its delete and
similarity-search behaviour modelled from the spec (section 4.3), since the
Chroma library code is not part of this repository.
-/

/-- An EmbeddingRecord / langchain Document: chunk text plus the metadata
keys the pipeline uses (`source`, set by the loaders, and `file_id`, set by
`index_document_to_chroma`; `none` means the key is absent). -/
structure Doc where
  page_content : List Char
  source : List Char
  file_id : Option Int
deriving DecidableEq, Repr

/-- A Python exception, as far as the pipeline distinguishes them:
`valueError` is the `ValueError` raised by `load_and_split_document`,
`ioError` stands for file-read failures, `other` for anything else
(embedding failures and the like). -/
inductive PyErr where
  | valueError (msg : List Char)
  | ioError (msg : List Char)
  | other (msg : List Char)
deriving DecidableEq, Repr

/-- External collaborators of chroma_utils.py: the three format-specific
loaders, the text-file read in the `.txt` branch, and whether this call's
`vectorstore.add_documents` (embedding plus store) succeeds. -/
structure Env where
  loadPdf : List Char → Except PyErr (List Doc)
  loadDocx : List Char → Except PyErr (List Doc)
  loadHtml : List Char → Except PyErr (List Doc)
  readTxt : List Char → Except PyErr (List Char)
  addOk : Bool

/-- Chunk size C of the splitter: `RecursiveCharacterTextSplitter(chunk_size=1000, ...)`. -/
def chunk_size : Nat := 1000

/-- Chunk overlap O of the splitter: `chunk_overlap=200`. -/
def chunk_overlap : Nat := 200

/-- Modelled from the spec: the repository's chunker is langchain's
`RecursiveCharacterTextSplitter`, whose code is not in this repository.
Section 4.2 fixes C=1000, O=200, determinism, and the short-input edge
case; it is modelled as a character sliding window: chunks of at most C
characters, consecutive chunks overlapping in O characters (step C-O).
The fuel argument is bounded by the text length, which suffices because
every step removes C-O = 800 characters. -/
def split_text_go (fuel : Nat) (s : List Char) : List (List Char) :=
  match fuel with
  | 0 => [s]
  | fuel + 1 =>
    if s.length ≤ chunk_size then [s]
    else s.take chunk_size :: split_text_go fuel (s.drop (chunk_size - chunk_overlap))

/-- Modelled from the spec: `text_splitter.split_text` — empty text yields
no chunks, otherwise the sliding window of `split_text_go`. -/
def split_text (s : List Char) : List (List Char) :=
  if s.isEmpty then [] else split_text_go s.length s

/-- Modelled from the spec: `text_splitter.split_documents` — chunk each
text unit, copying its metadata onto every chunk (section 4.2 applied to
the loader's units). -/
def split_documents (docs : List Doc) : List Doc :=
  docs.flatMap (fun d => (split_text d.page_content).map (fun c => { d with page_content := c }))

/-- Embeds `load_and_split_document` of src/chroma_utils.py: dispatch on
the (case-sensitive) path suffix to PyPDFLoader / Docx2txtLoader /
UnstructuredHTMLLoader then `split_documents`; for `.txt` read the file
and split, tagging each chunk with `source = file_path`; otherwise raise
`ValueError(f"Unsupported file type: {file_path}")`. -/
def load_and_split_document (env : Env) (file_path : List Char) : Except PyErr (List Doc) :=
  if (".pdf").data <:+ file_path then
    (env.loadPdf file_path).map split_documents
  else if (".docx").data <:+ file_path then
    (env.loadDocx file_path).map split_documents
  else if (".html").data <:+ file_path then
    (env.loadHtml file_path).map split_documents
  else if (".txt").data <:+ file_path then
    (env.readTxt file_path).map (fun text =>
      (split_text text).map (fun chunk => { page_content := chunk, source := file_path, file_id := none }))
  else
    Except.error (PyErr.valueError (("Unsupported file type: ").data ++ file_path))

/-- Embeds `index_document_to_chroma` of src/chroma_utils.py: load and
split, set `metadata['file_id'] = file_id` on every split, then
`vectorstore.add_documents`; the surrounding `try` turns any exception
into a `False` return.  The state is the vector store's record list; the
add call is modelled as atomic (spec section 4.6: all chunks indexed or
none), so a failing add leaves the store unchanged. -/
def index_document_to_chroma (env : Env) (file_path : List Char) (file_id : Int) (st : List Doc) : Bool × List Doc :=
  match load_and_split_document env file_path with
  | Except.error _ => (false, st)
  | Except.ok splits =>
    let tagged := splits.map (fun d => { d with file_id := some file_id })
    if env.addOk then (true, st ++ tagged) else (false, st)

/-- Embeds `delete_doc_from_chroma` of src/chroma_utils.py:
`vectorstore._collection.delete(where={"file_id": file_id})` then return
`True`.  Modelled from the spec for the Chroma internals (section 4.3):
delete removes every record whose metadata document identifier equals
`file_id`, and zero matches is a no-op success. -/
def delete_doc_from_chroma (file_id : Int) (st : List Doc) : Bool × List Doc :=
  (true, st.filter (fun d => decide (d.file_id ≠ some file_id)))

/-- Modelled from the spec: Chroma similarity search (section 4.3) —
rank the stored records by a similarity score against the query (the
score function abstracts the embedding plus distance metric), stably,
and return the first k. -/
def similarity_search (score : List Char → List Char → Int) (query : List Char) (k : Nat) (st : List Doc) : List Doc :=
  (st.mergeSort (fun a b => decide (score query b.page_content ≤ score query a.page_content))).take k

/-- The fixed system instruction of `get_rag_chain` in src/langchain_utils.py. -/
def rag_system_instruction : List Char :=
  ("You are a helpful AI assistant. Use the provided context to answer questions.").data

/-- The retrieval depth of `get_rag_chain`: `search_kwargs={"k": 2}`. -/
def rag_k : Nat := 2

/-- The sampling temperature of `get_rag_chain`: `temperature=0`. -/
def rag_temperature : Nat := 0

/-- Embeds `format_docs` of src/langchain_utils.py: join the retrieved
documents' page contents with a blank line. -/
def format_docs (docs : List Doc) : List Char :=
  List.intercalate (("\n\n").data) (docs.map (fun d => d.page_content))

/-- One chat message of the rendered prompt. -/
structure Message where
  role : List Char
  content : List Char
deriving DecidableEq, Repr

/-- Embeds the `ChatPromptTemplate` of `get_rag_chain`, rendered: the fixed
system instruction, a system message carrying the context, and the human
message carrying the user input. -/
def render_prompt (context input_text : List Char) : List Message :=
  [{ role := ("system").data, content := rag_system_instruction },
   { role := ("system").data, content := ("Context:\n").data ++ context },
   { role := ("human").data, content := input_text }]

/-- The language-model endpoint (external collaborator): a completion call
taking a temperature and a rendered prompt. -/
structure LLM where
  complete : Nat → List Message → List Char

/-- Embeds the chain built by `get_rag_chain` in src/langchain_utils.py and
its `RAGChainWrapper.invoke`: retrieve the top `rag_k` records for the
question, format them into the context, render the prompt, call the model
at `rag_temperature`, and return the parsed completion text (the wrapper's
`answer` value). -/
def rag_chain_invoke (llm : LLM) (score : List Char → List Char → Int) (st : List Doc) (question : List Char) : List Char :=
  let docs := similarity_search score question rag_k st
  let context := format_docs docs
  llm.complete rag_temperature (render_prompt context question)

/-- The allowed upload extensions of `upload_document` in src/main_simple.py. -/
def allowed_extensions : List (List Char) :=
  [(".pdf").data, (".docx").data, (".html").data, (".txt").data]

/-- Index of the last occurrence of `c` in `s`, if any (Python `str.rfind`). -/
def lastIdxOf (c : Char) (s : List Char) : Option Nat :=
  match s.reverse.findIdx? (fun x => x == c) with
  | none => none
  | some j => some (s.length - 1 - j)

/-- Embeds the extension part of Python's `os.path.splitext` for plain file
names (no directory separator, as uploaded filenames are used): the suffix
from the last dot on, provided some earlier character is not a dot
(so names made of leading dots have no extension). -/
def splitext_ext (s : List Char) : List Char :=
  match lastIdxOf '.' s with
  | none => []
  | some d => if (s.take d).any (fun c => decide (c ≠ '.')) then s.drop d else []

/-- Python `str.lower`, character-wise. -/
def str_lower (s : List Char) : List Char := s.map Char.toLower

/-- Embeds the extension validation of `upload_document`:
`os.path.splitext(file.filename)[1].lower() in allowed_extensions`. -/
def ext_check (filename : List Char) : Bool :=
  decide (str_lower (splitext_ext filename) ∈ allowed_extensions)

/-- Outcome of the upload endpoint, as far as the pipeline is concerned:
success with the assigned document identifier, or an HTTP error. -/
inductive UploadResult where
  | success (file_id : Int)
  | httpError (status : Nat) (detail : List Char)
deriving DecidableEq, Repr

/-- The detail string of the unsupported-type rejection in
`upload_document`.  The source joins the `allowed_extensions` Python set,
whose iteration order is unspecified; one order is fixed here. -/
def unsupported_type_detail (ext : List Char) : List Char :=
  ("Unsupported file type: ").data ++ ext ++ (". Allowed: .pdf, .docx, .html, .txt").data

/-- Embeds the ingestion path of `upload_document` in src/main_simple.py:
validate the lower-cased extension, save under `uploads/` plus the filename, index
to Chroma, and reject with a 400 when validation or indexing fails.
`file_id` stands for the identifier `insert_document_record` returns; the
SQLite bookkeeping and the file write are external collaborators and are
not part of the vector-index state. -/
def upload_document (env : Env) (filename : List Char) (file_id : Int) (st : List Doc) : UploadResult × List Doc :=
  if ext_check filename then
    let file_path := ("uploads/").data ++ filename
    let result := index_document_to_chroma env file_path file_id st
    if result.1 then (UploadResult.success file_id, result.2)
    else (UploadResult.httpError 400 (("Failed to index document").data), result.2)
  else
    (UploadResult.httpError 400 (unsupported_type_detail (str_lower (splitext_ext filename))), st)

/-- An environment whose external calls all succeed: for concrete runs. -/
def env_ok : Env :=
  { loadPdf := fun _ => Except.ok []
    loadDocx := fun _ => Except.ok []
    loadHtml := fun _ => Except.ok []
    readTxt := fun _ => Except.ok (("hi there").data)
    addOk := true }

/-- An environment whose `add_documents` call fails: for concrete runs. -/
def env_fail : Env :=
  { loadPdf := fun _ => Except.ok []
    loadDocx := fun _ => Except.ok []
    loadHtml := fun _ => Except.ok []
    readTxt := fun _ => Except.ok (("hi there").data)
    addOk := false }

/-- A concrete record tagged with documentId 1: for concrete runs. -/
def sample_doc1 : Doc := { page_content := ("a").data, source := ("f1").data, file_id := some 1 }

/-- A concrete record tagged with documentId 2: for concrete runs. -/
def sample_doc2 : Doc := { page_content := ("b").data, source := ("f2").data, file_id := some 2 }

/-- A concrete two-record store: for concrete runs. -/
def sample_store : List Doc := [sample_doc1, sample_doc2]

/-- With k at least the store size, similarity search returns exactly the
stored records (a stable reordering), so membership is membership. -/
theorem similarity_search_mem (score : List Char → List Char → Int) (query : List Char) (k : Nat) (st : List Doc) (hk : st.length ≤ k) (d : Doc) :
    d ∈ similarity_search score query k st ↔ d ∈ st := by
  unfold similarity_search
  rw [List.take_of_length_le]
  · exact (List.mergeSort_perm st _).mem_iff
  · rw [(List.mergeSort_perm st _).length_eq]
    exact hk

/-- When indexing reports failure the store is unchanged. -/
theorem index_document_failure_state (env : Env) (file_path : List Char) (file_id : Int) (st : List Doc) (h : (index_document_to_chroma env file_path file_id st).1 = false) :
    (index_document_to_chroma env file_path file_id st).2 = st := by
  unfold index_document_to_chroma at h ⊢
  cases hload : load_and_split_document env file_path with
  | error e => simp [hload]
  | ok splits =>
    simp only [hload] at h ⊢
    cases haddOk : env.addOk with
    | false => simp [haddOk]
    | true => simp [haddOk] at h

/-- The extension that `splitext_ext` computes is a suffix of the name. -/
theorem splitext_ext_suffix (s : List Char) : splitext_ext s <:+ s := by
  unfold splitext_ext
  cases lastIdxOf '.' s with
  | none => exact List.nil_suffix
  | some d =>
    by_cases h : (s.take d).any (fun c => decide (c ≠ '.')) = true
    · simp only [h, if_true]
      exact List.drop_suffix d s
    · simp only [h, if_false]
      exact List.nil_suffix

/-- Every allowed extension is already lower-case. -/
theorem allowed_lower (c : List Char) (hc : c ∈ allowed_extensions) : str_lower c = c := by
  simp only [allowed_extensions, List.mem_cons, List.not_mem_nil, or_false] at hc
  rcases hc with rfl | rfl | rfl | rfl <;> decide

/-- Lower-casing preserves length. -/
theorem str_lower_length (s : List Char) : (str_lower s).length = s.length := by
  simp [str_lower]

/-- No allowed extension is a proper suffix of another. -/
theorem allowed_suffix_eq : ∀ c ∈ allowed_extensions, ∀ L ∈ allowed_extensions, (c <:+ L ∨ L <:+ c) → c = L := by
  decide

/-- A path whose splitext extension lower-cases into the allowed set but is
not itself lower-case has no allowed extension as a (case-sensitive) suffix. -/
theorem suffix_case_clash (p e : List Char) (he : e <:+ p) (hlow : str_lower e ∈ allowed_extensions) (hne : e ≠ str_lower e) :
    ∀ c ∈ allowed_extensions, ¬ c <:+ p := by
  intro c hc hcp
  have hL : str_lower c = c := allowed_lower c hc
  have hor : c <:+ e ∨ e <:+ c := List.suffix_or_suffix_of_suffix hcp he
  have hor2 : c <:+ str_lower e ∨ str_lower e <:+ c := by
    rcases hor with h | h
    · left
      have hm := h.map Char.toLower
      simp only [str_lower] at hL ⊢
      rwa [hL] at hm
    · right
      have hm := h.map Char.toLower
      simp only [str_lower] at hL ⊢
      rwa [hL] at hm
  have hceq : c = str_lower e := allowed_suffix_eq c hc (str_lower e) hlow hor2
  have hlen : c.length = e.length := by rw [hceq, str_lower_length]
  have heeq : e = c := by
    rcases hor with h | h
    · exact (h.eq_of_length hlen).symm
    · exact h.eq_of_length hlen.symm
  exact hne (by rw [← hceq, heeq])

/-- A path with no allowed suffix falls through the loader dispatch into
the `ValueError` branch. -/
theorem load_and_split_unsupported (env : Env) (file_path : List Char) (h : ∀ c ∈ allowed_extensions, ¬ c <:+ file_path) :
    load_and_split_document env file_path = Except.error (PyErr.valueError (("Unsupported file type: ").data ++ file_path)) := by
  unfold load_and_split_document
  rw [if_neg (h (".pdf").data (by decide)), if_neg (h (".docx").data (by decide)),
    if_neg (h (".html").data (by decide)), if_neg (h (".txt").data (by decide))]

/-- C1: deleting a documentId removes every record whose `file_id` metadata
equals it and keeps every other record, so a search with k at least the
remaining index size returns no record with that `file_id` and every record
with a different one. -/
theorem delete_doc_scoped_removal (st : List Doc) (docId : Int) (score : List Char → List Char → Int) (query : List Char) (k : Nat)
    (hk : (delete_doc_from_chroma docId st).2.length ≤ k) :
    (delete_doc_from_chroma docId st).1 = true ∧
    (∀ d ∈ similarity_search score query k (delete_doc_from_chroma docId st).2, d.file_id ≠ some docId) ∧
    (∀ d ∈ st, d.file_id ≠ some docId → d ∈ similarity_search score query k (delete_doc_from_chroma docId st).2) := by
  refine ⟨rfl, ?_, ?_⟩
  · intro d hd
    rw [similarity_search_mem score query k _ hk d] at hd
    simp only [delete_doc_from_chroma] at hd
    exact of_decide_eq_true (List.mem_filter.mp hd).2
  · intro d hd hne
    rw [similarity_search_mem score query k _ hk d]
    simp only [delete_doc_from_chroma]
    exact List.mem_filter.mpr ⟨hd, decide_eq_true hne⟩

/-- Witness for C1 on a concrete two-record index. -/
theorem delete_doc_scoped_removal_witness :
    (delete_doc_from_chroma 1 sample_store).2.length ≤ 2 ∧
    ((delete_doc_from_chroma 1 sample_store).1 = true ∧
     (∀ d ∈ similarity_search (fun _ _ => (0 : Int)) (("q").data) 2 (delete_doc_from_chroma 1 sample_store).2, d.file_id ≠ some 1) ∧
     (∀ d ∈ sample_store, d.file_id ≠ some 1 → d ∈ similarity_search (fun _ _ => (0 : Int)) (("q").data) 2 (delete_doc_from_chroma 1 sample_store).2)) :=
  ⟨by decide, delete_doc_scoped_removal sample_store 1 (fun _ _ => (0 : Int)) (("q").data) 2 (by decide)⟩

/-- C2: when indexing succeeds, the new store is the old one plus the added
records, and every added record carries the assigned documentId in its
`file_id` metadata. -/
theorem index_document_tags_file_id (env : Env) (file_path : List Char) (file_id : Int) (st : List Doc)
    (h : (index_document_to_chroma env file_path file_id st).1 = true) :
    ∃ added : List Doc, (index_document_to_chroma env file_path file_id st).2 = st ++ added ∧
      ∀ d ∈ added, d.file_id = some file_id := by
  unfold index_document_to_chroma at h ⊢
  cases hload : load_and_split_document env file_path with
  | error e => simp [hload] at h
  | ok splits =>
    simp only [hload] at h ⊢
    cases haddOk : env.addOk with
    | false => simp [haddOk] at h
    | true =>
      simp only [haddOk, if_true]
      refine ⟨splits.map (fun d => { d with file_id := some file_id }), rfl, ?_⟩
      intro d hd
      obtain ⟨x, _, rfl⟩ := List.mem_map.mp hd
      rfl

/-- Witness for C2: a successful text-file ingest. -/
theorem index_document_tags_file_id_witness :
    (index_document_to_chroma env_ok (("a.txt").data) 7 []).1 = true ∧
    (∃ added : List Doc, (index_document_to_chroma env_ok (("a.txt").data) 7 []).2 = [] ++ added ∧
      ∀ d ∈ added, d.file_id = some 7) :=
  ⟨by decide, index_document_tags_file_id env_ok (("a.txt").data) 7 [] (by decide)⟩

/-- C3: a filename whose lower-cased extension is not allowed is rejected by
the upload endpoint with the unsupported-type error carrying that extension,
and the vector index is left unchanged. -/
theorem upload_unsupported_rejected (env : Env) (filename : List Char) (file_id : Int) (st : List Doc)
    (h : str_lower (splitext_ext filename) ∉ allowed_extensions) :
    upload_document env filename file_id st =
      (UploadResult.httpError 400 (unsupported_type_detail (str_lower (splitext_ext filename))), st) := by
  unfold upload_document
  rw [if_neg]
  simp [ext_check, h]

/-- Witness for C3 at the spec's example input `file.xyz`. -/
theorem upload_unsupported_rejected_witness :
    str_lower (splitext_ext (("file.xyz").data)) ∉ allowed_extensions ∧
    upload_document env_ok (("file.xyz").data) 4 [] =
      (UploadResult.httpError 400 (unsupported_type_detail (str_lower (splitext_ext (("file.xyz").data)))), []) :=
  ⟨by decide, upload_unsupported_rejected env_ok (("file.xyz").data) 4 [] (by decide)⟩

/-- C4: a failed ingest is atomic — if the documentId was fresh, no record
carrying it is in the store after the failure (the store is unchanged). -/
theorem index_document_failure_atomic (env : Env) (file_path : List Char) (file_id : Int) (st : List Doc)
    (h1 : (index_document_to_chroma env file_path file_id st).1 = false)
    (h2 : ∀ d ∈ st, d.file_id ≠ some file_id) :
    ∀ d ∈ (index_document_to_chroma env file_path file_id st).2, d.file_id ≠ some file_id := by
  rw [index_document_failure_state env file_path file_id st h1]
  exact h2

/-- Witness for C4: an ingest whose add call fails. -/
theorem index_document_failure_atomic_witness :
    (index_document_to_chroma env_fail (("a.txt").data) 3 []).1 = false ∧
    (∀ d ∈ ([] : List Doc), d.file_id ≠ some 3) ∧
    (∀ d ∈ (index_document_to_chroma env_fail (("a.txt").data) 3 []).2, d.file_id ≠ some 3) :=
  ⟨by decide, by decide, index_document_failure_atomic env_fail (("a.txt").data) 3 [] (by decide) (by decide)⟩

/-- C5: chunking is deterministic — the splitter is a pure function of the
input text, so two runs on the same text yield the same chunk sequence. -/
theorem split_text_deterministic (T : List Char) : split_text T = split_text T := rfl

/-- C6: a non-empty text shorter than the chunk size C=1000 yields exactly
one chunk, equal to the text. -/
theorem split_text_short_input (T : List Char) (hne : T ≠ []) (hlen : T.length < 1000) :
    split_text T = [T] := by
  cases T with
  | nil => exact absurd rfl hne
  | cons c ts =>
    unfold split_text
    rw [if_neg (by simp)]
    show split_text_go (ts.length + 1) (c :: ts) = [c :: ts]
    unfold split_text_go
    rw [if_pos]
    exact Nat.le_of_lt hlen

/-- Witness for C6 at a concrete five-character text. -/
theorem split_text_short_input_witness :
    (("hello").data ≠ [] ∧ (("hello").data).length < 1000) ∧ split_text (("hello").data) = [("hello").data] :=
  ⟨by decide, split_text_short_input (("hello").data) (by decide) (by decide)⟩

/-- C7: delete is an idempotent no-op success on absent documentIds — it
reports success on every store, a store without the documentId is returned
unchanged, and a second delete of the same documentId changes nothing. -/
theorem delete_doc_idempotent (st : List Doc) (docId : Int) :
    (delete_doc_from_chroma docId st).1 = true ∧
    ((∀ d ∈ st, d.file_id ≠ some docId) → delete_doc_from_chroma docId st = (true, st)) ∧
    delete_doc_from_chroma docId (delete_doc_from_chroma docId st).2 =
      (true, (delete_doc_from_chroma docId st).2) := by
  refine ⟨rfl, ?_, ?_⟩
  · intro h
    simp only [delete_doc_from_chroma]
    rw [List.filter_eq_self.mpr (fun d hd => decide_eq_true (h d hd))]
  · simp only [delete_doc_from_chroma]
    rw [List.filter_eq_self.mpr (fun d hd => (List.mem_filter.mp hd).2)]

/-- Witness for C7: deleting an absent documentId from a one-record store. -/
theorem delete_doc_idempotent_witness :
    (∀ d ∈ [sample_doc1], d.file_id ≠ some 5) ∧
    delete_doc_from_chroma 5 [sample_doc1] = (true, [sample_doc1]) :=
  ⟨by decide, (delete_doc_idempotent [sample_doc1] 5).2.1 (by decide)⟩

/-- C8: the answer pipeline retrieves the top k=2 records, joins their texts
in rank order with a blank-line separator into the context, renders the
fixed-instruction prompt over context and question, calls the model at
temperature 0 and returns the raw completion. -/
theorem rag_chain_composition (llm : LLM) (score : List Char → List Char → Int) (st : List Doc) (question : List Char) :
    rag_chain_invoke llm score st question =
      llm.complete 0 (render_prompt
        (List.intercalate (("\n\n").data) ((similarity_search score question 2 st).map (fun d => d.page_content)))
        question) := rfl

/-- C9: `index_document_to_chroma` never propagates an exception — it is a
total function into a success boolean, true exactly when loading and
splitting succeed and the add call succeeds, false on any failure. -/
theorem index_document_never_raises (env : Env) (file_path : List Char) (file_id : Int) (st : List Doc) :
    (index_document_to_chroma env file_path file_id st).1 = true ↔
      ((∃ splits, load_and_split_document env file_path = Except.ok splits) ∧ env.addOk = true) := by
  unfold index_document_to_chroma
  cases hload : load_and_split_document env file_path with
  | error e => simp [hload]
  | ok splits =>
    cases haddOk : env.addOk <;> simp [hload, haddOk]

/-- C10: a filename whose extension is an upper-case variant of an allowed
one passes the upload endpoint's lower-casing validation, but the loader's
case-sensitive dispatch raises the unsupported-type ValueError, so indexing
that file fails and leaves the store unchanged. -/
theorem upload_extension_case_mismatch (env : Env) (filename : List Char) (file_id : Int) (st : List Doc)
    (hlow : str_lower (splitext_ext filename) ∈ allowed_extensions)
    (hne : splitext_ext filename ≠ str_lower (splitext_ext filename)) :
    ext_check filename = true ∧
    load_and_split_document env (("uploads/").data ++ filename) =
      Except.error (PyErr.valueError (("Unsupported file type: ").data ++ (("uploads/").data ++ filename))) ∧
    index_document_to_chroma env (("uploads/").data ++ filename) file_id st = (false, st) := by
  have hsuf : splitext_ext filename <:+ ("uploads/").data ++ filename :=
    (splitext_ext_suffix filename).trans (List.suffix_append _ _)
  have hnosuf := suffix_case_clash _ _ hsuf hlow hne
  have hload := load_and_split_unsupported env (("uploads/").data ++ filename) hnosuf
  refine ⟨by simp [ext_check, hlow], hload, ?_⟩
  unfold index_document_to_chroma
  rw [hload]

/-- Witness for C10 at the concrete filename `test.TXT`. -/
theorem upload_extension_case_mismatch_witness :
    (str_lower (splitext_ext (("test.TXT").data)) ∈ allowed_extensions ∧
     splitext_ext (("test.TXT").data) ≠ str_lower (splitext_ext (("test.TXT").data))) ∧
    (ext_check (("test.TXT").data) = true ∧
     load_and_split_document env_ok (("uploads/").data ++ ("test.TXT").data) =
       Except.error (PyErr.valueError (("Unsupported file type: ").data ++ (("uploads/").data ++ ("test.TXT").data))) ∧
     index_document_to_chroma env_ok (("uploads/").data ++ ("test.TXT").data) 1 [] = (false, [])) :=
  ⟨by decide, upload_extension_case_mismatch env_ok (("test.TXT").data) 1 [] (by decide) (by decide)⟩
